import Mathlib

/-!
Shallow embedding of the recipe-management API (Django / Django REST framework
application), covering the code in `app/recipe/views.py` and the tests in
`app/core/tests/test_models.py` and `app/recipe/tests/test_recipe_api.py`.

Records are embedded as structures over `Nat` ids; the database is lists of
records.  Views become functions from the authenticated user id (and, where
the view consults them, the request query parameters) to the list of records
the framework would serialize, mirroring the queryset operations
(`filter`, `order_by`) performed by the source.
-/

namespace RecipeApp

/-- A tag row: `core.models.Tag` has an owning user and a name. -/
structure Tag where
  id : Nat
  user : Nat
  name : String
  deriving DecidableEq, Repr

/-- An ingredient row: `core.models.Ingredient` has an owning user and a name. -/
structure Ingredient where
  id : Nat
  user : Nat
  name : String
  deriving DecidableEq, Repr

/-- A recipe row: `core.models.Recipe` is owned by a user, with title, price,
preparation time, optional image, and many-to-many relations to tags and
ingredients (ids of related rows). Price is modelled in cents. -/
structure Recipe where
  id : Nat
  user : Nat
  title : String
  time_minutes : Nat
  price : Nat
  tags : List Nat
  ingredients : List Nat
  image : Option String
  deriving DecidableEq, Repr

/-- The stored state: the three tables plus a fresh-id counter. -/
structure Db where
  tags : List Tag
  ingredients : List Ingredient
  recipes : List Recipe
  nextId : Nat
  deriving DecidableEq, Repr

/-- Look up a query parameter (DRF `query_params.get(key)`). -/
def getParam (params : List (String × String)) (key : String) : Option String :=
  (params.find? (fun kv => kv.1 = key)).map (fun kv => kv.2)

/-! ### Querysets of the viewsets (`app/recipe/views.py`) -/

/-- Embeds `BaseRecipeAttributesViewSet.get_queryset` (views.py lines 17-19)
for the tag table:
`self.queryset.filter(user=self.request.user).order_by('-name')` —
only the authenticated user's rows, sorted by name descending. -/
def tagGetQueryset (user : Nat) (db : Db) : List Tag :=
  (db.tags.filter (fun t => t.user = user)).mergeSort
    (fun a b => b.name ≤ a.name)

/-- Embeds `BaseRecipeAttributesViewSet.get_queryset` (views.py lines 17-19)
for the ingredient table. -/
def ingredientGetQueryset (user : Nat) (db : Db) : List Ingredient :=
  (db.ingredients.filter (fun i => i.user = user)).mergeSort
    (fun a b => b.name ≤ a.name)

/-- Embeds `RecipeViewSet.get_queryset` (views.py lines 45-47):
`return self.queryset.filter(user=self.request.user)`.  The request's query
parameters are in scope (as in the Python method) but the body does not
consult them. -/
def recipeGetQueryset (user : Nat) (params : List (String × String))
    (db : Db) : List Recipe :=
  db.recipes.filter (fun r => r.user = user)

/-- DRF `GenericAPIView.get_object` for the recipe detail routes: look the
primary key up inside `get_queryset()`; a miss is an HTTP 404. -/
def recipeGetObject (user : Nat) (params : List (String × String))
    (db : Db) (pk : Nat) : Option Recipe :=
  (recipeGetQueryset user params db).find? (fun r => r.id = pk)

/-! ### Serializer saves

`recipe/serializers.py` is not under `src/`; the serializers are modelled
from the spec. -/

/-- Modelled from the spec: `recipe/serializers.py` (TagSerializer) is not
under `src/`.  Per the glossary a tag is a user-owned label, so saving one
requires an owning user: `save(user=u)` creates the row owned by `u`, while a
save with no user violates the non-null owner and creates nothing. -/
def tagSerializerSave (user : Option Nat) (name : String) (db : Db) :
    Option (Db × Tag) :=
  match user with
  | none => none
  | some u =>
    let t : Tag := { id := db.nextId, user := u, name := name }
    some ({ db with tags := db.tags ++ [t], nextId := db.nextId + 1 }, t)

/-- Modelled from the spec: `recipe/serializers.py` (IngredientSerializer) is
not under `src/`; same shape as the tag serializer. -/
def ingredientSerializerSave (user : Option Nat) (name : String) (db : Db) :
    Option (Db × Ingredient) :=
  match user with
  | none => none
  | some u =>
    let i : Ingredient := { id := db.nextId, user := u, name := name }
    some ({ db with ingredients := db.ingredients ++ [i], nextId := db.nextId + 1 }, i)

/-- The writable payload of a recipe create/update request.  Per the spec
glossary a recipe's client-supplied data is title, price, preparation time and
the related tag/ingredient ids; the owning user is never part of the payload. -/
structure RecipePayload where
  title : String
  time_minutes : Nat
  price : Nat
  tags : List Nat
  ingredients : List Nat
  deriving DecidableEq, Repr

/-- Modelled from the spec: `recipe/serializers.py` (RecipeSerializer) is not
under `src/`.  A recipe is "a record owned by a user", so a save must receive
the owner via `save(user=u)`; a save with no user violates the non-null owner
and creates nothing. -/
def recipeSerializerSave (user : Option Nat) (p : RecipePayload) (db : Db) :
    Option (Db × Recipe) :=
  match user with
  | none => none
  | some u =>
    let r : Recipe :=
      { id := db.nextId
        user := u
        title := p.title
        time_minutes := p.time_minutes
        price := p.price
        tags := p.tags
        ingredients := p.ingredients
        image := none }
    some ({ db with recipes := db.recipes ++ [r], nextId := db.nextId + 1 }, r)

/-! ### Create operations -/

/-- Embeds `BaseRecipeAttributesViewSet.perform_create` (views.py lines
21-23) for tags: `serializer.save(user=self.request.user)`. -/
def tagPerformCreate (user : Nat) (name : String) (db : Db) :
    Option (Db × Tag) :=
  tagSerializerSave (some user) name db

/-- Embeds `BaseRecipeAttributesViewSet.perform_create` (views.py lines
21-23) for ingredients: `serializer.save(user=self.request.user)`. -/
def ingredientPerformCreate (user : Nat) (name : String) (db : Db) :
    Option (Db × Ingredient) :=
  ingredientSerializerSave (some user) name db

/-- Embeds recipe creation: `RecipeViewSet` (views.py lines 38-47) declares
no `perform_create` override, so DRF `CreateModelMixin.perform_create` applies:
`serializer.save()` with no user argument.  The authenticated user is in
scope (as `self.request.user` is in Python) but is not passed to the save. -/
def recipePerformCreate (user : Nat) (p : RecipePayload) (db : Db) :
    Option (Db × Recipe) :=
  recipeSerializerSave none p db

/-! ### Routing

`RecipeViewSet` (views.py lines 38-47) is a plain `ModelViewSet`: it declares
no `@action` methods, so the DRF router registers only the standard model
routes for it. -/

/-- The extra `@action` url paths declared on `RecipeViewSet` in views.py:
there are none. -/
def recipeViewSetExtraActions : List String := []

/-- The reversible URL names the DRF router generates for `RecipeViewSet`:
the standard list/detail routes plus one `recipe-<url_path>` name per extra
action. -/
def recipeRouteNames : List String :=
  ["recipe-list", "recipe-detail"] ++
    recipeViewSetExtraActions.map (fun a => "recipe-" ++ a)

/-! ### Request dispatch

Both `BaseRecipeAttributesViewSet` (views.py lines 14-15) and `RecipeViewSet`
(views.py lines 42-43) declare `authentication_classes = (TokenAuthentication,)`
and `permission_classes = (IsAuthenticated,)`, so DRF rejects any request
without a valid token with HTTP 401 before any handler code runs. -/

/-- An incoming API request: the principal identified by the token, if the
token is present and valid, and the query parameters. -/
structure ApiRequest where
  auth : Option Nat
  params : List (String × String)
  deriving DecidableEq, Repr

/-- The operations the registered routes expose: list/create for tags and
ingredients (`ListModelMixin`/`CreateModelMixin` on
`BaseRecipeAttributesViewSet`), and the full `ModelViewSet` set for
recipes. -/
inductive Action where
  | tagList
  | tagCreate (name : String)
  | ingredientList
  | ingredientCreate (name : String)
  | recipeList
  | recipeRetrieve (pk : Nat)
  | recipeCreate (p : RecipePayload)
  | recipeUpdate (pk : Nat) (p : RecipePayload)
  | recipeDestroy (pk : Nat)
  deriving DecidableEq, Repr

/-- DRF `UpdateModelMixin` on the looked-up instance: the writable fields are
replaced from the payload, the owner is untouched. -/
def updateRecipe (r : Recipe) (p : RecipePayload) : Recipe :=
  { r with
    title := p.title
    time_minutes := p.time_minutes
    price := p.price
    tags := p.tags
    ingredients := p.ingredients }

/-- Dispatches one request: the authentication/permission declarations of the
viewsets answer 401 with the store untouched when no valid token identifies a
user; otherwise the mixin handler for the action runs.  The result is the
store after the request and the HTTP status code. -/
def dispatch (a : Action) (req : ApiRequest) (db : Db) : Db × Nat :=
  match req.auth with
  | none => (db, 401)
  | some u =>
    match a with
    | Action.tagList => (db, 200)
    | Action.tagCreate name =>
      match tagPerformCreate u name db with
      | some (db2, _) => (db2, 201)
      | none => (db, 500)
    | Action.ingredientList => (db, 200)
    | Action.ingredientCreate name =>
      match ingredientPerformCreate u name db with
      | some (db2, _) => (db2, 201)
      | none => (db, 500)
    | Action.recipeList => (db, 200)
    | Action.recipeRetrieve pk =>
      match recipeGetObject u req.params db pk with
      | some _ => (db, 200)
      | none => (db, 404)
    | Action.recipeCreate p =>
      match recipePerformCreate u p db with
      | some (db2, _) => (db2, 201)
      | none => (db, 500)
    | Action.recipeUpdate pk p =>
      match recipeGetObject u req.params db pk with
      | some r =>
        ({ db with recipes :=
            db.recipes.map (fun x => if x.id = r.id then updateRecipe x p else x) },
          200)
      | none => (db, 404)
    | Action.recipeDestroy pk =>
      match recipeGetObject u req.params db pk with
      | some r => ({ db with recipes := db.recipes.filter (fun x => x.id ≠ r.id) }, 204)
      | none => (db, 404)

/-! ### The user model

`core/models.py` is not under `src/`; the user manager and the model string
representations are modelled from the spec (and are exercised by
`app/core/tests/test_models.py`). -/

/-- A user row of the custom user model. -/
structure User where
  id : Nat
  email : String
  password : String
  is_superuser : Bool
  is_active : Bool
  deriving DecidableEq, Repr

/-- The user table plus a fresh-id counter. -/
structure UserDb where
  users : List User
  nextId : Nat
  deriving DecidableEq, Repr

/-- Modelled from the spec: `core/models.py` (the user manager's email
normalization) is not under `src/`.  The spec describes "user creation with
email normalization", storing the lowercased form of the supplied address. -/
def normalize_email (email : String) : String :=
  String.mk (email.data.map Char.toLower)

/-- Modelled from the spec: `core/models.py` (the custom user manager's
`create_user`) is not under `src/`.  Creation with no email (None or empty)
raises ValueError before anything is saved, modelled as `Except.error`;
otherwise the user is stored with the normalized email. -/
def create_user (db : UserDb) (email : Option String) (password : String) :
    Except String (UserDb × User) :=
  match email with
  | none => Except.error "Users must have an email address"
  | some e =>
    if e = "" then Except.error "Users must have an email address"
    else
      let u : User :=
        { id := db.nextId
          email := normalize_email e
          password := password
          is_superuser := false
          is_active := true }
      Except.ok ({ users := db.users ++ [u], nextId := db.nextId + 1 }, u)

/-- Modelled from the spec: `core/models.py` (`Tag.__str__`) is not under
`src/`; the string representation of a tag is its name. -/
def tagStr (t : Tag) : String := t.name

/-- Modelled from the spec: `core/models.py` (`Ingredient.__str__`) is not
under `src/`; the string representation of an ingredient is its name. -/
def ingredientStr (i : Ingredient) : String := i.name

/-- Modelled from the spec: `core/models.py` (`Recipe.__str__`) is not under
`src/`; the string representation of a recipe is its title. -/
def recipeStr (r : Recipe) : String := r.title

/-! ### Image file paths -/

/-- Computes the last dot-separated component of a file name, which is what
the Python expression `filename.split('.')[-1]` yields for the extension:
the characters after the last dot, the whole name when it has no dot. -/
def lastExt (filename : List Char) : List Char :=
  (filename.reverse.takeWhile (fun c => c ≠ '.')).reverse

/-- Modelled from the spec: `core.models.recipe_image_file_path` is not under
`src/`.  Per the spec ("UUID-named image file paths") and the test
`test_recipe_file_name_uuid`, it discards the uploaded base name, keeps the
extension, and places the file at `uploads/recipe/<uuid4>.<ext>`; the freshly
generated uuid4 is passed here as the `uuid` argument. -/
def recipe_image_file_path (uuid : String) (filename : String) : String :=
  String.mk ("uploads/recipe/".data ++ uuid.data ++ '.' :: lastExt filename.data)

/-! ### Sample data, mirroring the repository's tests -/

/-- Sample tag of user 1 (`test_tag_str` uses the name Vegan). -/
def sampleTag1 : Tag := { id := 1, user := 1, name := "Vegan" }

/-- Sample tag belonging to a different account. -/
def sampleTag2 : Tag := { id := 2, user := 2, name := "Fruity" }

/-- Sample ingredient of user 1 (`test_ingredient_str` uses Cucumber). -/
def sampleIng1 : Ingredient := { id := 3, user := 1, name := "Cucumber" }

/-- Sample recipe of user 1 (`sample_recipe` defaults). -/
def sampleRecipe1 : Recipe :=
  { id := 4, user := 1, title := "sampleRecipe", time_minutes := 10,
    price := 10000, tags := [1], ingredients := [3], image := none }

/-- Sample recipe of the other account (`test_recipes_limited_to_user`). -/
def sampleRecipe2 : Recipe :=
  { id := 5, user := 2, title := "otherRecipe", time_minutes := 10,
    price := 10000, tags := [], ingredients := [], image := none }

/-- Store holding the sample rows of both accounts. -/
def sampleDb : Db :=
  { tags := [sampleTag1, sampleTag2], ingredients := [sampleIng1],
    recipes := [sampleRecipe1, sampleRecipe2], nextId := 6 }

/-- Recipe with the first filter tag (`test_filter_recipes_by_tags`). -/
def filterRecipe1 : Recipe :=
  { id := 4, user := 1, title := "Thai breakfast", time_minutes := 10,
    price := 10000, tags := [1], ingredients := [], image := none }

/-- Recipe with the second filter tag. -/
def filterRecipe2 : Recipe :=
  { id := 5, user := 1, title := "Thai dessert", time_minutes := 10,
    price := 10000, tags := [2], ingredients := [], image := none }

/-- Recipe with none of the filter tags. -/
def filterRecipe3 : Recipe :=
  { id := 6, user := 1, title := "Fish and Chips", time_minutes := 10,
    price := 10000, tags := [], ingredients := [], image := none }

/-- Store of `test_filter_recipes_by_tags`: three recipes of user 1, two
tagged. -/
def filterDb : Db :=
  { tags := [{ id := 1, user := 1, name := "Breakfast" },
             { id := 2, user := 1, name := "Dessert" }],
    ingredients := [], recipes := [filterRecipe1, filterRecipe2, filterRecipe3],
    nextId := 7 }

/-- Query string of `test_filter_recipes_by_tags`: tags=1,2. -/
def filterReqParams : List (String × String) := [("tags", "1,2")]

/-- Empty user table for the user-manager theorems. -/
def userDb0 : UserDb := { users := [], nextId := 1 }

/-- The row `create_user` stores for email test@TEST.com
(`test_new_user_email_normalized`). -/
def normalizedUser : User :=
  { id := 1, email := "test@test.com", password := "testpass123",
    is_superuser := false, is_active := true }

/-! ### Queryset membership lemmas -/

/-- Membership in the tag queryset is ownership. -/
theorem mem_tagGetQueryset (u : Nat) (db : Db) (t : Tag) :
    t ∈ tagGetQueryset u db ↔ t ∈ db.tags ∧ t.user = u := by
  simp [tagGetQueryset, List.mem_filter]

/-- Membership in the ingredient queryset is ownership. -/
theorem mem_ingredientGetQueryset (u : Nat) (db : Db) (i : Ingredient) :
    i ∈ ingredientGetQueryset u db ↔ i ∈ db.ingredients ∧ i.user = u := by
  simp [ingredientGetQueryset, List.mem_filter]

/-- Membership in the recipe queryset is ownership, whatever the query
parameters say. -/
theorem mem_recipeGetQueryset (u : Nat) (params : List (String × String))
    (db : Db) (r : Recipe) :
    r ∈ recipeGetQueryset u params db ↔ r ∈ db.recipes ∧ r.user = u := by
  simp [recipeGetQueryset, List.mem_filter]

/-- Sorting with the descending-name comparator yields a list that is
pairwise descending on names. -/
theorem pairwise_desc_of_mergeSort {α : Type} (f : α → String) (l : List α) :
    (l.mergeSort (fun a b => f b ≤ f a)).Pairwise (fun a b => f b ≤ f a) := by
  refine List.Pairwise.imp ?_ (List.sorted_mergeSort ?_ ?_ l)
  · intro a b h
    exact of_decide_eq_true h
  · intro a b c hab hbc
    simp only [decide_eq_true_eq] at *
    exact le_trans hbc hab
  · intro a b
    simp only [Bool.or_eq_true, decide_eq_true_eq]
    exact le_total _ _

/-! ### Claim theorems -/

/-- C1: for every authenticated user, the recipe, tag and ingredient
querysets backing the list and detail endpoints contain exactly the stored
rows owned by that user, and the detail lookup used for mutation can only
reach a row owned by that user. -/
theorem ownership_scoping :
    ∀ (u : Nat) (params : List (String × String)) (db : Db)
      (r : Recipe) (t : Tag) (i : Ingredient) (pk : Nat),
      (r ∈ recipeGetQueryset u params db ↔ r ∈ db.recipes ∧ r.user = u) ∧
      (t ∈ tagGetQueryset u db ↔ t ∈ db.tags ∧ t.user = u) ∧
      (i ∈ ingredientGetQueryset u db ↔ i ∈ db.ingredients ∧ i.user = u) ∧
      (∀ r2 : Recipe, recipeGetObject u params db pk = some r2 →
        r2 ∈ db.recipes ∧ r2.user = u) := by
  intro u params db r t i pk
  refine ⟨mem_recipeGetQueryset u params db r, mem_tagGetQueryset u db t,
    mem_ingredientGetQueryset u db i, ?_⟩
  intro r2 h
  exact (mem_recipeGetQueryset u params db r2).mp (List.mem_of_find?_eq_some h)

/-- C1 witness: on the sample store, user 1 sees their own recipe and the
detail lookup at pk 4 yields a row of user 1. -/
theorem ownership_scoping_witness :
    sampleRecipe1 ∈ recipeGetQueryset 1 [] sampleDb ∧
    (sampleRecipe1 ∈ sampleDb.recipes ∧ sampleRecipe1.user = 1) := by
  have h := ownership_scoping 1 [] sampleDb sampleRecipe1 sampleTag1 sampleIng1 4
  exact ⟨h.1.mpr (by decide), h.2.2.2 sampleRecipe1 (by decide)⟩

/-- C2 (as stated, against the code): at the input of
`test_filter_recipes_by_tags` the request carries tags=1,2, yet
`RecipeViewSet.get_queryset` never reads the query parameters, so the recipe
carrying none of the listed tags is still returned. -/
theorem recipe_filter_param_ignored :
    getParam filterReqParams "tags" = some "1,2" ∧
    filterRecipe3.tags = [] ∧
    filterRecipe3 ∈ recipeGetQueryset 1 filterReqParams filterDb := by
  decide

/-- C3 (as stated, against the code): `RecipeViewSet` declares no extra
action, so the router registers no `recipe-upload-image` route: the
image-upload endpoint of the tests does not exist. -/
theorem upload_image_route_absent :
    recipeViewSetExtraActions = ([] : List String) ∧
    recipeRouteNames.contains "recipe-upload-image" = false := by
  decide

/-- C4 (as stated, against the code): tag and ingredient creation stores the
requester as owner, but `RecipeViewSet` lacks a `perform_create` override,
so the recipe save runs without a user and can never produce an owned row;
the create request answers 500 instead of storing an owned recipe. -/
theorem recipe_create_sets_no_owner :
    ∀ (u : Nat) (p : RecipePayload) (db : Db) (name : String),
      recipePerformCreate u p db = none ∧
      dispatch (Action.recipeCreate p) { auth := some u, params := [] } db =
        (db, 500) ∧
      (tagPerformCreate u name db).map (fun x => x.2.user) = some u ∧
      (ingredientPerformCreate u name db).map (fun x => x.2.user) = some u :=
  fun u p db name => ⟨rfl, rfl, rfl, rfl⟩

/-- C5: every user stored by `create_user` carries the lowercased form of the
supplied email. -/
theorem create_user_normalizes_email :
    ∀ (db : UserDb) (e pw : String) (db2 : UserDb) (u : User),
      create_user db (some e) pw = Except.ok (db2, u) →
      u.email.data = e.data.map Char.toLower := by
  intro db e pw db2 u h
  simp only [create_user] at h
  by_cases he : e = ""
  · simp [he] at h
  · rw [if_neg he] at h
    injection h with h1
    injection h1 with hdb hu
    subst hu
    rfl

/-- C5 witness: creating a user with email test@TEST.com stores
test@test.com, as in `test_new_user_email_normalized`. -/
theorem create_user_normalizes_email_witness :
    create_user userDb0 (some "test@TEST.com") "testpass123" =
      Except.ok ({ users := [normalizedUser], nextId := 2 }, normalizedUser) ∧
    normalizedUser.email.data = "test@TEST.com".data.map Char.toLower := by
  constructor
  · rfl
  · exact create_user_normalizes_email userDb0 "test@TEST.com" "testpass123"
      { users := [normalizedUser], nextId := 2 } normalizedUser rfl

/-- C6: the stored image path keeps only the extension (the last
dot-separated component) of the uploaded name and places the file at
uploads/recipe/<uuid>.<ext>, whatever the base name was. -/
theorem recipe_image_path_uuid :
    ∀ (uuid filename : String) (base ext : List Char),
      filename.data = base ++ '.' :: ext → ('.' ∈ ext → False) →
      (recipe_image_file_path uuid filename).data =
        "uploads/recipe/".data ++ uuid.data ++ '.' :: ext := by
  intro uuid filename base ext hf he
  have hext : lastExt filename.data = ext := by
    rw [hf]
    unfold lastExt
    rw [List.reverse_append, List.reverse_cons, List.append_assoc,
      List.singleton_append,
      List.takeWhile_append_of_pos (by
        intro a ha
        have : a ∈ ext := List.mem_reverse.mp ha
        simp only [ne_eq, decide_eq_true_eq]
        intro hcontra
        exact he (hcontra ▸ this))]
    simp
  unfold recipe_image_file_path
  rw [hext]

/-- C6 witness: with the uuid of `test_recipe_file_name_uuid`, an upload
named myimage.jpg is stored at uploads/recipe/test-uuid.jpg. -/
theorem recipe_image_path_uuid_witness :
    (recipe_image_file_path "test-uuid" "myimage.jpg").data =
      "uploads/recipe/".data ++ "test-uuid".data ++ '.' :: "jpg".data :=
  recipe_image_path_uuid "test-uuid" "myimage.jpg" "myimage".data "jpg".data
    (by decide) (by decide)

/-- C7: the string representation of a tag is its name, of an ingredient its
name, and of a recipe its title. -/
theorem model_string_reprs :
    ∀ (t : Tag) (i : Ingredient) (r : Recipe),
      tagStr t = t.name ∧ ingredientStr i = i.name ∧ recipeStr r = r.title :=
  fun _ _ _ => ⟨rfl, rfl, rfl⟩

/-- C8: every request without valid token authentication is answered with
HTTP 401 and leaves the store untouched, whatever the action. -/
theorem unauthenticated_rejected :
    ∀ (a : Action) (params : List (String × String)) (db : Db),
      dispatch a { auth := none, params := params } db = (db, 401) :=
  fun _ _ _ => rfl

/-- C9: the tag and ingredient list endpoints return exactly the
authenticated user's rows, sorted by name in descending order. -/
theorem attr_lists_sorted_desc :
    ∀ (u : Nat) (db : Db),
      (tagGetQueryset u db).Pairwise (fun a b => b.name ≤ a.name) ∧
      (tagGetQueryset u db).Perm (db.tags.filter (fun t => t.user = u)) ∧
      (ingredientGetQueryset u db).Pairwise (fun a b => b.name ≤ a.name) ∧
      (ingredientGetQueryset u db).Perm
        (db.ingredients.filter (fun i => i.user = u)) := by
  intro u db
  exact ⟨pairwise_desc_of_mergeSort (fun t : Tag => t.name) _,
    List.mergeSort_perm _ _,
    pairwise_desc_of_mergeSort (fun i : Ingredient => i.name) _,
    List.mergeSort_perm _ _⟩

/-- C10: `create_user` with no email (None or empty) raises ValueError,
modelled as the error result; no result carries a stored user. -/
theorem create_user_requires_email :
    ∀ (db : UserDb) (pw : String),
      create_user db none pw =
        Except.error "Users must have an email address" ∧
      create_user db (some "") pw =
        Except.error "Users must have an email address" ∧
      (∀ (db2 : UserDb) (u : User),
        create_user db none pw = Except.ok (db2, u) → False) ∧
      (∀ (db2 : UserDb) (u : User),
        create_user db (some "") pw = Except.ok (db2, u) → False) := by
  intro db pw
  have h1 : create_user db none pw =
      Except.error "Users must have an email address" := rfl
  have h2 : create_user db (some "") pw =
      Except.error "Users must have an email address" := by
    simp [create_user]
  refine ⟨h1, h2, ?_, ?_⟩
  · intro db2 u h
    rw [h1] at h
    exact Except.noConfusion h
  · intro db2 u h
    rw [h2] at h
    exact Except.noConfusion h

/-- C10 witness: on the empty user table, creation with no email yields the
ValueError message and no user. -/
theorem create_user_requires_email_witness :
    create_user userDb0 none "testpass123" =
      Except.error "Users must have an email address" ∧
    create_user userDb0 (some "") "testpass123" =
      Except.error "Users must have an email address" :=
  ⟨(create_user_requires_email userDb0 "testpass123").1,
   (create_user_requires_email userDb0 "testpass123").2.1⟩

end RecipeApp
